import Mathlib

/-
Verification of the account-slot / import model of the AccountSelector
component (src/src/components/AccountSelector.tsx).

The component state (React useState hooks) is embedded as the structure
SelectorState; the event handlers handleImportAccount and handleQRImport
are embedded as pure functions from state to (new state, emitted events),
where events record toast notifications, the call to the import
collaborator and the page reload.  Strings are modelled as sequences of
Unicode scalar values (Lean String).  JavaScript truthiness that matters
is modelled explicitly: an empty string is falsy (qrData.trim() guard,
the avatar fallback) and the number 0 is falsy (the availableSlot guard).

The import collaborator importFromQR (hook useQRTransfer) and the slot
registry are not part of the visible source; where a claim needs them
they are modelled from the specification (see the doc comments starting
with Modelled from the spec).
-/

namespace MantraVerse

/-- An account record as the component reads it: id, name, optional
avatar token and creation timestamp. -/
structure Account where
  id : String
  name : String
  avatar : Option String
  createdAt : String
deriving DecidableEq

/-- One entry of the accounts list provided by useAccountManager:
a slot number, an emptiness flag and the bound account when present. -/
structure AccountSlot where
  slot : Nat
  isEmpty : Bool
  account : Option Account
deriving DecidableEq

/-- The component state relevant to the claims: the accounts list,
the import dialog flag, the pasted payload text, the selected target
slot and the importing flag. -/
structure SelectorState where
  accounts : List AccountSlot
  showImportDialog : Bool
  qrData : String
  selectedSlot : Nat
  importing : Bool
deriving DecidableEq

/-- Observable events emitted by the handlers: error and success toasts,
the invocation of the import collaborator, and the page reload. -/
inductive Event where
  | importCall (payload : String) (slot : Nat)
  | toastError (msg : String)
  | toastSuccess (msg : String)
  | reload
deriving DecidableEq

/-- Errors of the import taxonomy from the specification. -/
inductive ImportError where
  | AllSlotsOccupied
  | EmptyPayload
  | DecodeError
  | InvalidSlot
  | SlotOccupied
  | SlotAlreadyEmpty
  | PersistenceFailure
deriving DecidableEq

/-- Toast shown by handleImportAccount when no empty slot exists. -/
def allSlotsOccupiedMsg : String :=
  "All account slots are occupied. Please remove an account first."

/-- Toast shown by handleQRImport when the trimmed payload is empty. -/
def emptyPayloadMsg : String := "Please provide QR code data"

/-- Toast shown by the catch block of handleQRImport. -/
def importFailedMsg : String := "Failed to import account. Please check your QR code."

/-- Toast shown by handleQRImport on success. -/
def importSuccessMsg : String := "Account imported successfully!"

/-- JavaScript String.prototype.trim as called on qrData: strip leading
and trailing whitespace characters. -/
def jsTrim (s : String) : String :=
  String.mk (((s.toList.dropWhile Char.isWhitespace).reverse.dropWhile
    Char.isWhitespace).reverse)

/-- The first character of a word, as JavaScript word[0]: none when the
word is empty (JavaScript undefined). -/
def firstChar (w : String) : Option Char := w.toList.head?

/-- JavaScript Array.prototype.join renders undefined elements as the
empty string, so joining single optional characters with the empty
separator keeps exactly the present characters, in order. -/
def joinChars (l : List (Option Char)) : List Char := l.filterMap id

/-- getInitials from the source: split the name on single spaces, take
the first character of each piece, join, uppercase, keep the first two
characters. -/
def getInitials (name : String) : String :=
  String.mk ((joinChars ((name.splitOn " ").map firstChar)).map Char.toUpper |>.take 2)

/-- The initials derivation as the specification words it: the first
letter of each space separated word of the name, concatenated,
uppercased, truncated to 2 characters.  An empty piece between two
consecutive separators is not a word and has no first letter. -/
def getInitialsSpec (name : String) : String :=
  String.mk ((((name.splitOn " ").filterMap (fun w => w.toList.head?)).map Char.toUpper).take 2)

/-- The avatar token rendered inside AvatarFallback for a bound account:
account.avatar when truthy (present and non-empty), otherwise the
initials derived from the name. -/
def displayedAvatarToken (acc : Account) : String :=
  match acc.avatar with
  | some a => if a = "" then getInitials acc.name else a
  | none => getInitials acc.name

/-- handleImportAccount from the source: find the first empty slot in
the accounts list; the guard (!availableSlot) fires both when no empty
slot exists (undefined) and when the found slot number is 0 (falsy),
showing the occupied toast; otherwise select the slot and open the
dialog for importing. -/
def handleImportAccount (s : SelectorState) : SelectorState × List Event :=
  match (s.accounts.find? (fun acc => acc.isEmpty)).map AccountSlot.slot with
  | none => (s, [Event.toastError allSlotsOccupiedMsg])
  | some n =>
      if n = 0 then (s, [Event.toastError allSlotsOccupiedMsg])
      else ({ s with selectedSlot := n, showImportDialog := true }, [])

/-- handleQRImport from the source: reject a payload that is empty after
trimming; otherwise call the import collaborator with the payload and
the selected slot; on success toast success, close the dialog, clear the
payload and reload; on failure toast the catch message; the finally
block resets importing on both paths. -/
def handleQRImport (f : String → Nat → Except ImportError (List AccountSlot))
    (s : SelectorState) : SelectorState × List Event :=
  if jsTrim s.qrData == "" then
    (s, [Event.toastError emptyPayloadMsg])
  else
    match f s.qrData s.selectedSlot with
    | Except.ok _ =>
        ({ s with importing := false, showImportDialog := false, qrData := "" },
          [Event.importCall s.qrData s.selectedSlot,
           Event.toastSuccess importSuccessMsg, Event.reload])
    | Except.error _ =>
        ({ s with importing := false },
          [Event.importCall s.qrData s.selectedSlot, Event.toastError importFailedMsg])

/-- The disabled condition of the Import button in the dialog: an
in-flight call, or an empty trimmed payload. -/
def importButtonDisabled (s : SelectorState) : Bool :=
  s.importing || jsTrim s.qrData == ""

/-- The first phase of handleQRImport, up to and including the await of
the import collaborator: the trimmed-empty guard, then setImporting to
true and the collaborator call. -/
def qrImportStart (s : SelectorState) : SelectorState × List Event :=
  if jsTrim s.qrData == "" then (s, [Event.toastError emptyPayloadMsg])
  else ({ s with importing := true }, [Event.importCall s.qrData s.selectedSlot])

/-- The second phase of handleQRImport, after the awaited call returns
or throws: success handling or the catch block, then the finally block
resetting importing to false. -/
def qrImportFinish (s : SelectorState) (r : Except ImportError (List AccountSlot)) :
    SelectorState × List Event :=
  match r with
  | Except.ok _ =>
      ({ s with showImportDialog := false, qrData := "", importing := false },
        [Event.toastSuccess importSuccessMsg, Event.reload])
  | Except.error _ =>
      ({ s with importing := false }, [Event.toastError importFailedMsg])

/-- Clicking the Import button: a disabled button fires no handler,
otherwise the click runs handleQRImport. -/
def clickImport (f : String → Nat → Except ImportError (List AccountSlot))
    (s : SelectorState) : SelectorState × List Event :=
  if importButtonDisabled s then (s, []) else handleQRImport f s

/-- Modelled from the spec: Registry.bindAccount, whose code is not in
the visible source (only its caller is).  Per the specification it fails
with InvalidSlot when the slot number does not exist, with SlotOccupied
when the target slot is not empty, and otherwise binds the account into
that slot in place. -/
def bindAccount (registry : List AccountSlot) (slot : Nat) (acc : Account) :
    Except ImportError (List AccountSlot) :=
  match registry.find? (fun a => a.slot == slot) with
  | none => Except.error ImportError.InvalidSlot
  | some a =>
      if a.isEmpty then
        Except.ok (registry.map (fun b =>
          if b.slot == slot then { b with isEmpty := false, account := some acc } else b))
      else Except.error ImportError.SlotOccupied

/-- Modelled from the spec: importFromQR, the Account Import Resolver of
hook useQRTransfer, whose code is not in the visible source.  Per the
specification it decodes the payload with a pure codec; on decode
failure it reports DecodeError and must not touch the registry; on
decode success it delegates to Registry.bindAccount. -/
def importFromQR (decode : String → Except Unit Account) (registry : List AccountSlot)
    (payload : String) (slot : Nat) : Except ImportError (List AccountSlot) :=
  match decode payload with
  | Except.error _ => Except.error ImportError.DecodeError
  | Except.ok acc => bindAccount registry slot acc

/-- The two-phase decomposition agrees with handleQRImport: running the
start phase and then the finish phase on the result of the collaborator
call produces exactly the state and events of handleQRImport. -/
theorem handleQRImport_eq_phases (f : String → Nat → Except ImportError (List AccountSlot))
    (s : SelectorState) :
    handleQRImport f s =
      if jsTrim s.qrData == "" then qrImportStart s
      else
        ((qrImportFinish (qrImportStart s).1 (f s.qrData s.selectedSlot)).1,
          (qrImportStart s).2 ++
            (qrImportFinish (qrImportStart s).1 (f s.qrData s.selectedSlot)).2) := by
  by_cases h : jsTrim s.qrData == ""
  · simp [handleQRImport, qrImportStart, h]
  · cases hr : f s.qrData s.selectedSlot with
    | ok r => simp [handleQRImport, qrImportStart, qrImportFinish, h, hr]
    | error e => simp [handleQRImport, qrImportStart, qrImportFinish, h, hr]

/-- C10: getInitials is total (a Lean function defined by structural
operations) and for every input string returns a string of length at
most 2. -/
theorem c10_getInitials_total_bounded (name : String) : (getInitials name).length ≤ 2 := by
  simp [getInitials, String.length]

/-- C6: for every name, getInitials computes exactly the specification
formula: first letter of each space separated word, concatenated,
uppercased, truncated to 2 characters. -/
theorem c6_getInitials_matches_spec (name : String) :
    getInitials name = getInitialsSpec name := by
  simp only [getInitials, getInitialsSpec, joinChars, List.filterMap_map]
  rfl

/-- A concrete account used by the sample states below. -/
def sampleAccount : Account :=
  { id := "abc123def456", name := "Jane Doe", avatar := none, createdAt := "2024-01-01" }

/-- A concrete occupied slot. -/
def boundSlot (n : Nat) : AccountSlot :=
  { slot := n, isEmpty := false, account := some sampleAccount }

/-- A concrete empty slot. -/
def emptySlot (n : Nat) : AccountSlot :=
  { slot := n, isEmpty := true, account := none }

/-- A sample state whose payload is whitespace only. -/
def sBlankPayload : SelectorState :=
  { accounts := [emptySlot 1, boundSlot 2, emptySlot 3], showImportDialog := true,
    qrData := " ", selectedSlot := 1, importing := false }

/-- A sample state with a non-blank payload. -/
def sReadyPayload : SelectorState :=
  { accounts := [emptySlot 1, boundSlot 2, emptySlot 3], showImportDialog := true,
    qrData := "payload", selectedSlot := 1, importing := false }

/-- A sample state whose slots are all occupied. -/
def sAllBound : SelectorState :=
  { accounts := [boundSlot 1, boundSlot 2, boundSlot 3], showImportDialog := false,
    qrData := "", selectedSlot := 1, importing := false }

/-- A sample state with slot 1 occupied and slots 2 and 3 empty. -/
def sSlotOneBound : SelectorState :=
  { accounts := [boundSlot 1, emptySlot 2, emptySlot 3], showImportDialog := false,
    qrData := "", selectedSlot := 1, importing := false }

/-- An import collaborator that always fails with DecodeError. -/
def alwaysDecodeError : String → Nat → Except ImportError (List AccountSlot) :=
  fun _ _ => Except.error ImportError.DecodeError

/-- C1: a payload that is empty after trimming is rejected with the
EmptyPayload toast before any decode attempt: the state is returned
unchanged and no call to the import collaborator is emitted. -/
theorem c1_trimmed_empty_payload_rejected
    (f : String → Nat → Except ImportError (List AccountSlot))
    (s : SelectorState) (h : jsTrim s.qrData = "") :
    handleQRImport f s = (s, [Event.toastError emptyPayloadMsg]) ∧
    ∀ p n, Event.importCall p n ∉ (handleQRImport f s).2 := by
  have hq : handleQRImport f s = (s, [Event.toastError emptyPayloadMsg]) := by
    simp [handleQRImport, h]
  refine ⟨hq, ?_⟩
  intro p n
  rw [hq]
  simp

/-- Witness for C1 at a whitespace-only payload. -/
theorem c1_witness :
    jsTrim sBlankPayload.qrData = "" ∧
    handleQRImport alwaysDecodeError sBlankPayload
      = (sBlankPayload, [Event.toastError emptyPayloadMsg]) :=
  ⟨by decide, (c1_trimmed_empty_payload_rejected alwaysDecodeError sBlankPayload (by decide)).1⟩

/-- C2: when no slot in the accounts list is empty, starting the import
flow emits the AllSlotsOccupied toast and changes nothing: the dialog is
not opened and no decode happens. -/
theorem c2_all_slots_occupied_rejected (s : SelectorState)
    (h : ∀ a ∈ s.accounts, a.isEmpty = false) :
    handleImportAccount s = (s, [Event.toastError allSlotsOccupiedMsg]) := by
  have hf : s.accounts.find? (fun acc => acc.isEmpty) = none := by
    rw [List.find?_eq_none]
    intro x hx
    simp [h x hx]
  simp [handleImportAccount, hf]

/-- Witness for C2 at a fully occupied registry. -/
theorem c2_witness :
    (∀ a ∈ sAllBound.accounts, a.isEmpty = false) ∧
    handleImportAccount sAllBound = (sAllBound, [Event.toastError allSlotsOccupiedMsg]) :=
  ⟨by decide, c2_all_slots_occupied_rejected sAllBound (by decide)⟩

/-- If a list is pairwise related by R, its first element satisfying p
is equal or R-related to every element satisfying p. -/
theorem find?_first_of_pairwise {α : Type} (p : α → Bool) (R : α → α → Prop) :
    ∀ l : List α, l.Pairwise R → ∀ x, l.find? p = some x →
      ∀ y ∈ l, p y → x = y ∨ R x y := by
  intro l
  induction l with
  | nil => intro _ x hx; simp at hx
  | cons a t ih =>
      intro hp x hx y hy hpy
      rw [List.pairwise_cons] at hp
      by_cases hpa : p a
      · rw [List.find?_cons_of_pos _ hpa] at hx
        cases hx
        rcases List.mem_cons.mp hy with h1 | h1
        · exact Or.inl h1.symm
        · exact Or.inr (hp.1 y h1)
      · rw [List.find?_cons_of_neg _ hpa] at hx
        rcases List.mem_cons.mp hy with h1 | h1
        · subst h1; exact absurd hpy hpa
        · exact ih hp.2 x hx y h1 hpy

/-- C3: when the accounts list is in slot-number order with positive
slot numbers (the order and range the Registry guarantees) and some slot
is empty, handleImportAccount selects an empty slot whose number is
least among the empty slots, and opens the dialog. -/
theorem c3_lowest_empty_slot_selected (s : SelectorState)
    (hsort : s.accounts.Pairwise (fun a b => a.slot < b.slot))
    (hpos : ∀ a ∈ s.accounts, 0 < a.slot)
    (a : AccountSlot) (ha : a ∈ s.accounts) (hemp : a.isEmpty = true) :
    ∃ b ∈ s.accounts, b.isEmpty = true ∧
      handleImportAccount s =
        ({ s with selectedSlot := b.slot, showImportDialog := true }, []) ∧
      ∀ c ∈ s.accounts, c.isEmpty = true → b.slot ≤ c.slot := by
  have hsome : (s.accounts.find? (fun acc => acc.isEmpty)).isSome := by
    rw [List.find?_isSome]
    exact ⟨a, ha, hemp⟩
  obtain ⟨b, hb⟩ := Option.isSome_iff_exists.mp hsome
  have hbmem : b ∈ s.accounts := List.mem_of_find?_eq_some hb
  have hbemp : b.isEmpty = true := List.find?_some hb
  have hbpos : b.slot ≠ 0 := Nat.pos_iff_ne_zero.mp (hpos b hbmem)
  refine ⟨b, hbmem, hbemp, ?_, ?_⟩
  · simp [handleImportAccount, hb, hbpos]
  · intro c hc hce
    rcases find?_first_of_pairwise (fun acc => acc.isEmpty) _ s.accounts hsort b hb c hc hce
      with h1 | h1
    · exact Nat.le_of_eq (congrArg AccountSlot.slot h1)
    · exact Nat.le_of_lt h1

/-- Witness for C3: slot 1 occupied, slots 2 and 3 empty; slot 2 is
selected. -/
theorem c3_witness :
    ∃ b ∈ sSlotOneBound.accounts, b.isEmpty = true ∧
      handleImportAccount sSlotOneBound =
        ({ sSlotOneBound with selectedSlot := b.slot, showImportDialog := true }, []) ∧
      ∀ c ∈ sSlotOneBound.accounts, c.isEmpty = true → b.slot ≤ c.slot :=
  c3_lowest_empty_slot_selected sSlotOneBound (by decide) (by decide)
    (emptySlot 2) (by decide) rfl

/-- C9: a failed import attempt leaves the payload text, the selected
slot and the dialog flag unchanged (both on the trimmed-empty guard and
on a collaborator failure); only a successful import clears the payload
and closes the dialog. -/
theorem c9_retry_frame (f : String → Nat → Except ImportError (List AccountSlot))
    (s : SelectorState) :
    (jsTrim s.qrData = "" → (handleQRImport f s).1 = s) ∧
    (∀ e, f s.qrData s.selectedSlot = Except.error e →
      (handleQRImport f s).1.qrData = s.qrData ∧
      (handleQRImport f s).1.selectedSlot = s.selectedSlot ∧
      (handleQRImport f s).1.showImportDialog = s.showImportDialog) ∧
    (∀ reg, jsTrim s.qrData ≠ "" → f s.qrData s.selectedSlot = Except.ok reg →
      (handleQRImport f s).1.qrData = "" ∧
      (handleQRImport f s).1.showImportDialog = false) := by
  refine ⟨?_, ?_, ?_⟩
  · intro h
    simp [handleQRImport, h]
  · intro e he
    by_cases ht : jsTrim s.qrData = ""
    · simp [handleQRImport, ht]
    · simp [handleQRImport, beq_iff_eq, ht, he]
  · intro reg ht hr
    simp [handleQRImport, beq_iff_eq, ht, hr]

/-- Witness for C9: a DecodeError attempt on a concrete state keeps
payload, slot and dialog. -/
theorem c9_witness :
    (handleQRImport alwaysDecodeError sReadyPayload).1.qrData = sReadyPayload.qrData ∧
    (handleQRImport alwaysDecodeError sReadyPayload).1.selectedSlot
      = sReadyPayload.selectedSlot ∧
    (handleQRImport alwaysDecodeError sReadyPayload).1.showImportDialog
      = sReadyPayload.showImportDialog :=
  (c9_retry_frame alwaysDecodeError sReadyPayload).2.1 ImportError.DecodeError rfl

/-- A codec that always fails to decode. -/
def alwaysDecodeFail : String → Except Unit Account := fun _ => Except.error ()

/-- C4: when decode fails, importFromQR reports DecodeError without
producing any registry; and on every collaborator failure the handler
leaves the accounts list unchanged, so no account is bound to any slot
and no partial account is left behind. -/
theorem c4_decode_failure_no_mutation (decode : String → Except Unit Account)
    (registry : List AccountSlot) (payload : String) (slot : Nat)
    (h : decode payload = Except.error ()) :
    importFromQR decode registry payload slot = Except.error ImportError.DecodeError ∧
    ∀ (f : String → Nat → Except ImportError (List AccountSlot))
      (s : SelectorState) (e : ImportError),
      f s.qrData s.selectedSlot = Except.error e →
      (handleQRImport f s).1.accounts = s.accounts := by
  constructor
  · simp [importFromQR, h]
  · intro f s e he
    by_cases ht : jsTrim s.qrData = ""
    · simp [handleQRImport, ht]
    · simp [handleQRImport, beq_iff_eq, ht, he]

/-- Witness for C4 at a failing codec and a concrete state. -/
theorem c4_witness :
    alwaysDecodeFail "payload" = Except.error () ∧
    importFromQR alwaysDecodeFail sReadyPayload.accounts "payload" 2
      = Except.error ImportError.DecodeError ∧
    (handleQRImport alwaysDecodeError sReadyPayload).1.accounts = sReadyPayload.accounts := by
  have h := c4_decode_failure_no_mutation alwaysDecodeFail sReadyPayload.accounts "payload" 2 rfl
  exact ⟨rfl, h.1, h.2 alwaysDecodeError sReadyPayload ImportError.DecodeError rfl⟩

/-- C5 counterexample: DecodeError and SlotOccupied are distinct errors
of the taxonomy, yet for a concrete state the handler emits the exact
same notification event list for both, because every failure thrown by
the import collaborator lands in the same catch block with the same
message. -/
theorem c5_counterexample :
    ImportError.DecodeError ≠ ImportError.SlotOccupied ∧
    (handleQRImport (fun _ _ => Except.error ImportError.DecodeError) sReadyPayload).2
      = (handleQRImport (fun _ _ => Except.error ImportError.SlotOccupied) sReadyPayload).2 := by
  exact ⟨by decide, by decide⟩

/-- C5 amended: the import flow produces exactly three distinct
notification messages - AllSlotsOccupied before prompting, EmptyPayload
on a blank payload, and one shared catch-all message for every error
thrown by the collaborator (DecodeError, InvalidSlot and SlotOccupied
alike); errors of the same catch block are not distinguished. -/
theorem c5_amended_notifications (f : String → Nat → Except ImportError (List AccountSlot))
    (s : SelectorState) (e : ImportError)
    (ht : jsTrim s.qrData ≠ "") (hf : f s.qrData s.selectedSlot = Except.error e) :
    (handleQRImport f s).2
      = [Event.importCall s.qrData s.selectedSlot, Event.toastError importFailedMsg] ∧
    allSlotsOccupiedMsg ≠ emptyPayloadMsg ∧
    allSlotsOccupiedMsg ≠ importFailedMsg ∧
    emptyPayloadMsg ≠ importFailedMsg := by
  refine ⟨?_, by decide, by decide, by decide⟩
  simp [handleQRImport, beq_iff_eq, ht, hf]

/-- Witness for the amended C5 at a concrete failing collaborator. -/
theorem c5_amended_witness :
    jsTrim sReadyPayload.qrData ≠ "" ∧
    (handleQRImport alwaysDecodeError sReadyPayload).2
      = [Event.importCall sReadyPayload.qrData sReadyPayload.selectedSlot,
         Event.toastError importFailedMsg] :=
  ⟨by decide,
   (c5_amended_notifications alwaysDecodeError sReadyPayload ImportError.DecodeError
      (by decide) rfl).1⟩

/-- C7: the rendered avatar token is the avatar field when it is present
and non-empty, and otherwise (absent avatar, or the falsy empty string)
is the initials derived from the name. -/
theorem c7_avatar_token (acc : Account) :
    (∀ a, acc.avatar = some a → a ≠ "" → displayedAvatarToken acc = a) ∧
    (acc.avatar = none ∨ acc.avatar = some "" →
      displayedAvatarToken acc = getInitials acc.name) := by
  constructor
  · intro a ha hne
    simp [displayedAvatarToken, ha, hne]
  · rintro (h | h) <;> simp [displayedAvatarToken, h]

/-- Witness for C7: a present avatar wins; an absent one falls back to
the initials of the name. -/
theorem c7_witness :
    displayedAvatarToken
        { id := "id1", name := "Jane Doe", avatar := some "JD", createdAt := "2024" } = "JD" ∧
    displayedAvatarToken
        { id := "id2", name := "Jane Doe", avatar := none, createdAt := "2024" }
      = getInitials "Jane Doe" :=
  ⟨(c7_avatar_token _).1 "JD" rfl (by decide), (c7_avatar_token _).2 (Or.inl rfl)⟩

/-- C8: from any state where the Import button is enabled, the start
phase of handleQRImport sets importing to true before the collaborator
is awaited, which disables the button, so a click while the call is in
flight does nothing; and the finish phase resets importing to false on
both the success and the failure path. -/
theorem c8_single_import_in_flight
    (f : String → Nat → Except ImportError (List AccountSlot))
    (s : SelectorState) (h : importButtonDisabled s = false) :
    (qrImportStart s).1.importing = true ∧
    importButtonDisabled (qrImportStart s).1 = true ∧
    clickImport f (qrImportStart s).1 = ((qrImportStart s).1, []) ∧
    ∀ r, (qrImportFinish (qrImportStart s).1 r).1.importing = false := by
  have h2 := h
  rw [importButtonDisabled, Bool.or_eq_false_iff] at h2
  obtain ⟨hi, ht⟩ := h2
  have ht' : ¬ (jsTrim s.qrData = "") := by
    intro hh
    rw [hh] at ht
    simp at ht
  have hstart : (qrImportStart s).1 = { s with importing := true } := by
    simp [qrImportStart, beq_iff_eq, ht']
  have hd : importButtonDisabled (qrImportStart s).1 = true := by
    rw [hstart]
    simp [importButtonDisabled]
  refine ⟨?_, hd, ?_, ?_⟩
  · rw [hstart]
  · simp [clickImport, hd]
  · intro r
    cases r <;> simp [qrImportFinish]

/-- Witness for C8 at a concrete enabled state. -/
theorem c8_witness :
    importButtonDisabled sReadyPayload = false ∧
    (qrImportStart sReadyPayload).1.importing = true ∧
    clickImport alwaysDecodeError (qrImportStart sReadyPayload).1
      = ((qrImportStart sReadyPayload).1, []) :=
  ⟨by decide,
   (c8_single_import_in_flight alwaysDecodeError sReadyPayload (by decide)).1,
   (c8_single_import_in_flight alwaysDecodeError sReadyPayload (by decide)).2.2.1⟩

end MantraVerse
